import Mathlib

/-!
Verification of `src/backend/ai_generator.py` (class `AIGenerator`).

The Python module is embedded shallowly:

* Python dicts with a fixed key set become Lean structures; a key that may be
  absent becomes an `Option` field.
* The Gemini client (`self.client.models.generate_content`) is modelled as an
  explicit oracle `backend : ApiParams → GenResponse`; every request issued is
  recorded in a trace list, in order, so that "exactly one backend call" is the
  length of that trace.
* The duck-typed `tool_manager` collaborator is a structure holding
  `execute_tool : String → List (String × String) → Except String String`;
  a Python exception raised by a tool is `Except.error`.
* Python aliasing is modelled faithfully: the source sets
  `api_params["config"] = self.base_params` and then writes
  `system_instruction` / `tools` into that very dict, so the embedding threads
  the mutated config back into the instance state (`AIGenerator.base_params`).
* `response.text` of the SDK concatenates the text parts of the first
  candidate and yields `None` when there is no text part; it is modelled as
  `GenResponse.text : Option String`.
-/

/-- A `function_call` attribute of a response part: a tool name and an optional
arguments mapping (Python `dict`, modelled as an association list with opaque
string values; `none` models `args is None`). -/
structure FunctionCall where
  name : String
  args : Option (List (String × String))
deriving DecidableEq

/-- A content part. Response parts are text parts or function-call parts;
request parts may additionally be `function_response` payloads (the dicts the
code builds in `tool_results`, carrying the tool name and the result content). -/
inductive CPart where
  | text (s : String)
  | functionCall (fc : FunctionCall)
  | functionResponse (name : String) (content : String)
deriving DecidableEq

/-- One conversation turn: `{"role": ..., "parts": [...]}`. -/
structure Turn where
  role : String
  parts : List CPart
deriving DecidableEq

/-- The `{"parts": [{"text": system_content}]}` dict assigned to
`config["system_instruction"]`; each element of `parts` is the text of one
`{"text": ...}` entry. -/
structure SystemInstruction where
  parts : List String
deriving DecidableEq

/-- One entry of `config["tools"]`: `{"function_declarations": [tool]}`, where
a tool declaration is opaque to the adapter and modelled as a string. -/
structure GeminiTool where
  function_declarations : List String
deriving DecidableEq

/-- The config dict. At construction `self.base_params` is
`{"temperature": 0, "max_output_tokens": 800}`; `generate_response` may later
insert the keys `system_instruction` and `tools` into this same dict, so those
keys are `Option` fields that start out `none`. -/
structure Config where
  temperature : Int
  max_output_tokens : Int
  system_instruction : Option SystemInstruction := none
  tools : Option (List GeminiTool) := none
deriving DecidableEq

/-- A request payload: `{"model": ..., "contents": [...], "config": {...}}`.
In every reachable request the `config` key is present (the code's
`if self.base_params:` guard is always taken because the dict always holds at
least `temperature` and `max_output_tokens`), so `config` is a plain field. -/
structure ApiParams where
  model : String
  contents : List Turn
  config : Config
deriving DecidableEq

/-- The first candidate of a backend response: its `finish_reason` (compared
against the string `"STOP"` by the code) and its `content.parts`. -/
structure Candidate where
  finish_reason : String
  parts : List CPart
deriving DecidableEq

/-- A backend response; the code only ever reads `response.candidates[0]` and
`response.text`. -/
structure GenResponse where
  candidates0 : Candidate
deriving DecidableEq

/-- SDK behaviour of `response.text`: the concatenation of the text parts of
the first candidate, or `none` when no text part exists. -/
def GenResponse.text (r : GenResponse) : Option String :=
  match r.candidates0.parts.filterMap
      (fun p => match p with | CPart.text s => some s | _ => none) with
  | [] => none
  | l => some (String.join l)

/-- The duck-typed `tool_manager` collaborator: `execute_tool(name, **kwargs)`;
`Except.error` models a raised exception. -/
structure ToolManager where
  execute_tool : String → List (String × String) → Except String String

/-- Instance state of `AIGenerator`: `self.model_name` and the (mutable)
`self.base_params` dict. The API client is passed separately as the oracle. -/
structure AIGenerator where
  model_name : String
  base_params : Config
deriving DecidableEq

/-- Python `__init__`: pre-builds `base_params = {"temperature": 0,
"max_output_tokens": 800}` (no other keys). -/
def AIGenerator.init (model : String) : AIGenerator :=
  { model_name := model
    base_params := { temperature := 0, max_output_tokens := 800 } }

/-- The static class attribute `SYSTEM_PROMPT`, byte for byte (the source file
contains the mojibake sequence U+00E2 U+20AC U+201D where an em-dash was
intended). -/
def SYSTEM_PROMPT : String :=
  " You are an AI assistant specialized in course materials and educational content with access to a comprehensive search tool for course information.\n\nSearch Tool Usage:\n- Use the search tool **only** for questions about specific course content or detailed educational materials\n- **One search per query maximum**\n- Synthesize search results into accurate, fact-based responses\n- If search yields no results, state this clearly without offering alternatives\n\nResponse Protocol:\n- **General knowledge questions**: Answer using existing knowledge without searching\n- **Course-specific questions**: Search first, then answer\n- **No meta-commentary**:\n - Provide direct answers only â€” no reasoning process, search explanations, or question-type analysis\n - Do not mention \"based on the search results\"\n\n\nAll responses must be:\n1. **Brief, Concise and focused** - Get to the point quickly\n2. **Educational** - Maintain instructional value\n3. **Clear** - Use accessible language\n4. **Example-supported** - Include relevant examples when they aid understanding\nProvide only the direct answer to what was asked.\n"

/-- The `system_content` expression of `generate_response`:
`f"{self.SYSTEM_PROMPT}\n\nPrevious conversation:\n{conversation_history}" if
conversation_history else self.SYSTEM_PROMPT`. Python truthiness: `None` and
the empty string select the bare prompt. -/
def system_content (conversation_history : Option String) : String :=
  match conversation_history with
  | some h =>
      if h ≠ "" then SYSTEM_PROMPT ++ "\n\nPrevious conversation:\n" ++ h
      else SYSTEM_PROMPT
  | none => SYSTEM_PROMPT

/-- Python truthiness of the `tools` argument (`if tools:`): an absent list and
an empty list are falsy. -/
def toolsTruthy (tools : Option (List String)) : Bool :=
  match tools with
  | some (_ :: _) => true
  | _ => false

/-- The `gemini_tools` list built inside `if tools:`: each tool wrapped as
`{"function_declarations": [tool]}`, in order. -/
def gemini_tools (tools : Option (List String)) : List GeminiTool :=
  match tools with
  | some ts => ts.map (fun t => GeminiTool.mk [t])
  | none => []

/-- The `api_params` dict as it stands when `generate_content(**api_params)` is
executed: contents hold the single user turn with the query; `config` is the
`self.base_params` dict (the `if self.base_params:` guard is always taken),
into which `system_instruction` is written whenever `system_content` is truthy
(it always is, since `SYSTEM_PROMPT` is non-empty) and `tools` is written
whenever the `tools` argument is truthy. -/
def build_initial (st : AIGenerator) (query : String)
    (conversation_history : Option String) (tools : Option (List String)) :
    ApiParams :=
  let sysc := system_content conversation_history
  let cfg := st.base_params
  let cfg := if sysc ≠ "" then
      { cfg with system_instruction := some (SystemInstruction.mk [sysc]) }
    else cfg
  let cfg := if toolsTruthy tools then
      { cfg with tools := some (gemini_tools tools) }
    else cfg
  { model := st.model_name
    contents := [Turn.mk "user" [CPart.text query]]
    config := cfg }

/-- The `tool_args` dict passed to `execute_tool` for one function-call part:
`dict(function_call.args) if function_call.args else {}` (an absent or empty
mapping both yield `{}`), then the workaround that inserts
`'query': 'default query'` when the tool is `search_course_content` and the
mapping lacks a `query` key (a Python dict insertion appends the new key). -/
def toolArgsOf (fc : FunctionCall) : List (String × String) :=
  let tool_args := match fc.args with
    | some l => l
    | none => []
  if (tool_args.lookup "query").isNone ∧ fc.name = "search_course_content" then
    tool_args ++ [("query", "default query")]
  else tool_args

/-- The `for part in initial_response.candidates[0].content.parts:` loop.
Returns the `tool_results` list (`Except.error` when some `execute_tool` call
raises, aborting the loop) together with the log of executor invocations
`(name, kwargs)` actually made, in order (invocations made before a raise
still appear in the log). -/
def runTools (tm : ToolManager) :
    List CPart →
      Except String (List CPart) × List (String × List (String × String))
  | [] => (Except.ok [], [])
  | CPart.functionCall fc :: rest =>
      let args := toolArgsOf fc
      match tm.execute_tool fc.name args with
      | Except.error e => (Except.error e, [(fc.name, args)])
      | Except.ok res =>
          ((runTools tm rest).1.map
             (fun rs => CPart.functionResponse fc.name res :: rs),
           (fc.name, args) :: (runTools tm rest).2)
  | _ :: rest => runTools tm rest

/-- The function-call parts of a parts list, in order (a part counts when
`hasattr(part, 'function_call') and part.function_call is not None`). -/
def toolCallParts (ps : List CPart) : List FunctionCall :=
  ps.filterMap (fun p => match p with
    | CPart.functionCall fc => some fc
    | _ => none)

/-- Method `_handle_tool_execution(initial_response, base_params, tool_manager)`.
Returns the result (`Except.error` when a tool raised — propagated, the
follow-up is never issued), the list of backend requests it issued, and the
instance state afterwards. The follow-up request's config is again the
`self.base_params` dict (alias: the same dict `build_initial` mutated), into
which the initial request's `system_instruction` — the very same value, since
`base_params["config"]` is that same dict — is re-written when present. -/
def handle_tool_execution (st : AIGenerator)
    (backend : ApiParams → GenResponse) (initial_response : GenResponse)
    (base_params : ApiParams) (tm : ToolManager) :
    Except String (Option String) × List ApiParams × AIGenerator :=
  let contents := base_params.contents
  let contents := contents ++
    [Turn.mk "model" initial_response.candidates0.parts]
  match (runTools tm initial_response.candidates0.parts).1 with
  | Except.error e => (Except.error e, [], st)
  | Except.ok tool_results =>
      let contents := if tool_results ≠ [] then
          contents ++ [Turn.mk "user" tool_results]
        else contents
      let cfg := st.base_params
      let cfg := if base_params.config.system_instruction.isSome then
          { cfg with
              system_instruction := base_params.config.system_instruction }
        else cfg
      let final_params : ApiParams :=
        { model := st.model_name, contents := contents, config := cfg }
      let final_response := backend final_params
      (Except.ok final_response.text, [final_params],
       { st with base_params := cfg })

/-- Method `generate_response(query, conversation_history, tools, tool_manager)`.
Returns the result (the returned `response.text`, or a propagated tool
exception), the ordered trace of backend requests issued, and the instance
state afterwards (the `system_instruction` / `tools` writes of `build_initial`
went through the alias into `self.base_params`). The branch mirrors
`if response.candidates[0].finish_reason == "STOP" and tool_manager:`. -/
def generate_response (st : AIGenerator) (backend : ApiParams → GenResponse)
    (query : String) (conversation_history : Option String)
    (tools : Option (List String)) (tool_manager : Option ToolManager) :
    Except String (Option String) × List ApiParams × AIGenerator :=
  let api_params := build_initial st query conversation_history tools
  let st := { st with base_params := api_params.config }
  let response := backend api_params
  match tool_manager with
  | some tm =>
      if response.candidates0.finish_reason = "STOP" then
        let (v, reqs, st') :=
          handle_tool_execution st backend response api_params tm
        (v, api_params :: reqs, st')
      else (Except.ok response.text, [api_params], st)
  | none => (Except.ok response.text, [api_params], st)

/-- C1: the claim demands that the follow-up request carry no `tools` entry.
The code violates it: `api_params["config"] = self.base_params` aliases the
instance dict, the initial call writes `tools` into that dict, and the
follow-up's config is the very same dict, so the follow-up request carries the
tool declarations. Concretely, with one tool declaration `"decl"`, a backend
that stops normally with one function-call part, and an always-succeeding tool
manager, the trace holds exactly two requests (one follow-up) and BOTH carry
`tools = [{function_declarations: ["decl"]}]`. -/
theorem C1_followup_carries_tools :
    ((generate_response (AIGenerator.init "m")
        (fun _ => GenResponse.mk (Candidate.mk "STOP"
          [CPart.functionCall (FunctionCall.mk "get_time" (some []))]))
        "hi" none (some ["decl"])
        (some (ToolManager.mk fun _ _ => Except.ok "res"))).2.1).map
      (fun r => r.config.tools)
      = [some [GeminiTool.mk ["decl"]], some [GeminiTool.mk ["decl"]]] := by
  rfl

/-- C2: the claim demands a caller-visible error when a required parameter is
missing. The code instead silently fabricates `query = "default query"` for a
`search_course_content` call whose arguments mapping lacks `query`, and
invokes the executor with that placeholder: the invocation log shows the
fabricated argument and the result is an ordinary success, not an error. -/
theorem C2_placeholder_substituted :
    runTools (ToolManager.mk fun _ _ => Except.ok "res")
        [CPart.functionCall (FunctionCall.mk "search_course_content" none)]
      = (Except.ok [CPart.functionResponse "search_course_content" "res"],
         [("search_course_content", [("query", "default query")])]) := by
  rfl

/-- C3: the claim demands that `base_params` still equal exactly
`{temperature: 0, max_output_tokens: 800}` after any call. It does not: even a
plain call with no history, no tools and no tool manager writes the
`system_instruction` key into `self.base_params` through the
`api_params["config"]` alias, while at construction that key is absent. -/
theorem C3_base_params_mutated :
    ((generate_response (AIGenerator.init "m")
        (fun _ => GenResponse.mk (Candidate.mk "MAX_TOKENS" [CPart.text "4"]))
        "hi" none none none).2.2).base_params.system_instruction
        = some (SystemInstruction.mk [SYSTEM_PROMPT])
      ∧ (AIGenerator.init "m").base_params.system_instruction = none := by
  exact ⟨rfl, rfl⟩

/-- C6: the claim demands a `MalformedResponseError` when the response lacks
extractable text and no tool path is taken. No such error exists in the code:
with no tool manager and a backend response with no text part, the call
returns `response.text` unchecked, i.e. Python `None` (despite the declared
`-> str` return type), not an error. -/
theorem C6_missing_text_returns_none :
    (generate_response (AIGenerator.init "m")
        (fun _ => GenResponse.mk (Candidate.mk "MAX_TOKENS" []))
        "hi" none none none).1 = Except.ok none := by
  rfl

/-- C7: with no tool declarations and no tool executor, `generate_response`
issues exactly one backend request (the trace is the one-element list holding
the initial request) and returns that response's text unchanged. -/
theorem C7_single_call_text_unchanged (st : AIGenerator)
    (backend : ApiParams → GenResponse) (query : String)
    (history : Option String) :
    generate_response st backend query history none none
      = (Except.ok (backend (build_initial st query history none)).text,
         [build_initial st query history none],
         { st with base_params := (build_initial st query history none).config }) := by
  rfl

/-- C5: if some tool invocation raises while handling the tool-execution path
(`runTools` yields `Except.error e`), the whole call returns that error — no
fallback text — and the request trace holds only the initial request: no
follow-up backend call is made. -/
theorem C5_tool_error_aborts (st : AIGenerator)
    (backend : ApiParams → GenResponse) (query : String)
    (history : Option String) (tools : Option (List String))
    (tm : ToolManager) (e : String)
    (hstop : (backend (build_initial st query history tools)).candidates0.finish_reason = "STOP")
    (herr : (runTools tm (backend (build_initial st query history tools)).candidates0.parts).1
      = Except.error e) :
    generate_response st backend query history tools (some tm)
      = (Except.error e, [build_initial st query history tools],
         { st with base_params := (build_initial st query history tools).config }) := by
  simp only [generate_response, handle_tool_execution, hstop, herr, if_true,
    ite_true, eq_self_iff_true]

/-- Witness for C5 at a concrete input: a backend that stops normally with one
function-call part and a tool manager that always raises `"boom"`. -/
theorem C5_tool_error_aborts_witness :
    (runTools (ToolManager.mk fun _ _ => Except.error "boom")
        ((fun (_ : ApiParams) => GenResponse.mk (Candidate.mk "STOP"
            [CPart.functionCall (FunctionCall.mk "t" (some [("a", "b")]))]))
          (build_initial (AIGenerator.init "m") "q" none none)).candidates0.parts).1
        = Except.error "boom"
      ∧ generate_response (AIGenerator.init "m")
          (fun _ => GenResponse.mk (Candidate.mk "STOP"
            [CPart.functionCall (FunctionCall.mk "t" (some [("a", "b")]))]))
          "q" none none (some (ToolManager.mk fun _ _ => Except.error "boom"))
        = (Except.error "boom", [build_initial (AIGenerator.init "m") "q" none none],
           { AIGenerator.init "m" with
               base_params := (build_initial (AIGenerator.init "m") "q" none none).config }) :=
  ⟨rfl, C5_tool_error_aborts (AIGenerator.init "m")
    (fun _ => GenResponse.mk (Candidate.mk "STOP"
      [CPart.functionCall (FunctionCall.mk "t" (some [("a", "b")]))]))
    "q" none none (ToolManager.mk fun _ _ => Except.error "boom") "boom" rfl rfl⟩

/-- C8: the tool-execution path is taken exactly when the backend's first
candidate reports `finish_reason = "STOP"` and a tool manager was supplied:
in that case the call's outcome is the outcome of `handle_tool_execution`
(its requests appended after the initial one); when the stop condition differs,
or when no tool manager is supplied, the initial response's plain text is
returned right after the single initial request. -/
theorem C8_tool_path_iff (st : AIGenerator) (backend : ApiParams → GenResponse)
    (query : String) (history : Option String) (tools : Option (List String))
    (tm : ToolManager) :
    (((backend (build_initial st query history tools)).candidates0.finish_reason = "STOP") →
      generate_response st backend query history tools (some tm)
        = ((handle_tool_execution
              { st with base_params := (build_initial st query history tools).config }
              backend (backend (build_initial st query history tools))
              (build_initial st query history tools) tm).1,
           build_initial st query history tools ::
             (handle_tool_execution
               { st with base_params := (build_initial st query history tools).config }
               backend (backend (build_initial st query history tools))
               (build_initial st query history tools) tm).2.1,
           (handle_tool_execution
             { st with base_params := (build_initial st query history tools).config }
             backend (backend (build_initial st query history tools))
             (build_initial st query history tools) tm).2.2))
    ∧ (((backend (build_initial st query history tools)).candidates0.finish_reason ≠ "STOP") →
      generate_response st backend query history tools (some tm)
        = (Except.ok (backend (build_initial st query history tools)).text,
           [build_initial st query history tools],
           { st with base_params := (build_initial st query history tools).config }))
    ∧ generate_response st backend query history tools none
        = (Except.ok (backend (build_initial st query history tools)).text,
           [build_initial st query history tools],
           { st with base_params := (build_initial st query history tools).config }) := by
  refine ⟨fun h => ?_, fun h => ?_, rfl⟩
  · simp only [generate_response, h, if_true, ite_true, eq_self_iff_true]
  · simp only [generate_response, if_neg h]

/-- Appending on the right cannot make a non-empty string empty. -/
theorem String.append_ne_empty_left (s t : String) (hs : s ≠ "") :
    s ++ t ≠ "" := by
  intro h
  apply hs
  have hd := congrArg String.data h
  rw [String.data_append] at hd
  rcases List.append_eq_nil.mp hd with ⟨h1, _⟩
  exact String.ext h1

/-- The static system prompt is a non-empty string. -/
theorem SYSTEM_PROMPT_ne_empty : SYSTEM_PROMPT ≠ "" := by decide

/-- The `system_content` value is never the empty string, so the code's
`if system_content:` guard is always taken. -/
theorem system_content_ne_empty (history : Option String) :
    system_content history ≠ "" := by
  cases history with
  | none => exact SYSTEM_PROMPT_ne_empty
  | some h =>
      simp only [system_content]
      split
      · exact String.append_ne_empty_left _ _
          (String.append_ne_empty_left _ _ SYSTEM_PROMPT_ne_empty)
      · exact SYSTEM_PROMPT_ne_empty

/-- The initial request always carries
`system_instruction = {"parts": [{"text": system_content}]}`. -/
theorem build_initial_system_instruction (st : AIGenerator) (query : String)
    (history : Option String) (tools : Option (List String)) :
    (build_initial st query history tools).config.system_instruction
      = some (SystemInstruction.mk [system_content history]) := by
  simp only [build_initial, system_content_ne_empty history, ne_eq,
    not_false_eq_true, if_true, ite_true]
  cases toolsTruthy tools <;> simp

/-- C9: the system content sent to the backend (the `system_instruction` text
of the initial request) is exactly the static system prompt when the prior
conversation is absent or empty, and the static prompt followed by the
rendered `"\n\nPrevious conversation:\n"` block carrying the context when it
is non-empty. -/
theorem C9_system_content_sent (st : AIGenerator) (query : String)
    (history : Option String) (tools : Option (List String)) :
    ((history = none ∨ history = some "") →
      (build_initial st query history tools).config.system_instruction
        = some (SystemInstruction.mk [SYSTEM_PROMPT]))
    ∧ (∀ h : String, history = some h → h ≠ "" →
      (build_initial st query history tools).config.system_instruction
        = some (SystemInstruction.mk
            [SYSTEM_PROMPT ++ "\n\nPrevious conversation:\n" ++ h])) := by
  constructor
  · rintro (rfl | rfl) <;> rw [build_initial_system_instruction] <;> rfl
  · rintro h rfl hne
    rw [build_initial_system_instruction]
    simp [system_content, hne]

/-- Witness for C9 at concrete inputs: an absent context yields exactly the
static prompt; the context `"hi there"` yields the prompt followed by the
rendered block. -/
theorem C9_system_content_sent_witness :
    (build_initial (AIGenerator.init "m") "q" none none).config.system_instruction
        = some (SystemInstruction.mk [SYSTEM_PROMPT])
      ∧ (build_initial (AIGenerator.init "m") "q" (some "hi there") none).config.system_instruction
        = some (SystemInstruction.mk
            [SYSTEM_PROMPT ++ "\n\nPrevious conversation:\n" ++ "hi there"]) :=
  ⟨(C9_system_content_sent (AIGenerator.init "m") "q" none none).1 (Or.inl rfl),
   (C9_system_content_sent (AIGenerator.init "m") "q" (some "hi there") none).2
     "hi there" rfl (by decide)⟩

/-- Witness for C8 at a concrete input: the backend reports
`finish_reason = "SAFETY"`, so even with a tool manager supplied the call
returns the plain text after the single initial request. -/
theorem C8_tool_path_iff_witness :
    ((fun (_ : ApiParams) => GenResponse.mk (Candidate.mk "SAFETY" [CPart.text "t"]))
        (build_initial (AIGenerator.init "m") "q" none none)).candidates0.finish_reason ≠ "STOP"
      ∧ generate_response (AIGenerator.init "m")
          (fun _ => GenResponse.mk (Candidate.mk "SAFETY" [CPart.text "t"]))
          "q" none none (some (ToolManager.mk fun _ _ => Except.ok "r"))
        = (Except.ok ((fun (_ : ApiParams) => GenResponse.mk (Candidate.mk "SAFETY" [CPart.text "t"]))
              (build_initial (AIGenerator.init "m") "q" none none)).text,
           [build_initial (AIGenerator.init "m") "q" none none],
           { AIGenerator.init "m" with
               base_params := (build_initial (AIGenerator.init "m") "q" none none).config }) :=
  ⟨by decide,
   (C8_tool_path_iff (AIGenerator.init "m")
      (fun _ => GenResponse.mk (Candidate.mk "SAFETY" [CPart.text "t"]))
      "q" none none (ToolManager.mk fun _ _ => Except.ok "r")).2.1 (by decide)⟩

/-- A parts list with no function-call part makes the tool loop a no-op: no
executor invocation and an empty `tool_results` list. -/
theorem runTools_no_tool_parts (tm : ToolManager) :
    ∀ ps : List CPart, toolCallParts ps = [] →
      runTools tm ps = (Except.ok [], []) := by
  intro ps
  induction ps with
  | nil => intro _; rfl
  | cons p rest ih =>
      cases p with
      | text s =>
          intro h
          rw [toolCallParts, List.filterMap_cons] at h
          exact ih h
      | functionResponse n c =>
          intro h
          rw [toolCallParts, List.filterMap_cons] at h
          exact ih h
      | functionCall fc =>
          intro h
          rw [toolCallParts, List.filterMap_cons] at h
          simp at h

/-- C10: when the tool-execution path is entered (normal stop, tool manager
supplied) but the initial response holds zero function-call parts, the
follow-up request is still issued — the trace holds the initial request and a
follow-up request `fr` — the follow-up conversation is the original contents
plus only the `"model"` turn (no tool-result turn is appended), and the value
returned is the follow-up response's text, not the initial response's. -/
theorem C10_no_tool_parts_followup (st : AIGenerator)
    (backend : ApiParams → GenResponse) (query : String)
    (history : Option String) (tools : Option (List String)) (tm : ToolManager)
    (hstop : (backend (build_initial st query history tools)).candidates0.finish_reason = "STOP")
    (hzero : toolCallParts (backend (build_initial st query history tools)).candidates0.parts = []) :
    ∃ fr st', generate_response st backend query history tools (some tm)
        = (Except.ok (backend fr).text,
           [build_initial st query history tools, fr], st')
      ∧ fr.contents = (build_initial st query history tools).contents
          ++ [Turn.mk "model"
              (backend (build_initial st query history tools)).candidates0.parts] := by
  have hrt := runTools_no_tool_parts tm
    (backend (build_initial st query history tools)).candidates0.parts hzero
  simp only [generate_response, handle_tool_execution, hstop, hrt, if_true,
    ite_true, eq_self_iff_true, ne_eq, not_true_eq_false, if_false, ite_false]
  exact ⟨_, _, rfl, rfl⟩

/-- Witness for C10 at a concrete input: a backend that always answers with a
plain text part and `finish_reason = "STOP"`, with a tool manager supplied. -/
theorem C10_no_tool_parts_followup_witness :
    ∃ fr st', generate_response (AIGenerator.init "m")
        (fun _ => GenResponse.mk (Candidate.mk "STOP" [CPart.text "plain"]))
        "q" none none (some (ToolManager.mk fun _ _ => Except.ok "r"))
        = (Except.ok ((fun (_ : ApiParams) => GenResponse.mk (Candidate.mk "STOP" [CPart.text "plain"])) fr).text,
           [build_initial (AIGenerator.init "m") "q" none none, fr], st')
      ∧ fr.contents = (build_initial (AIGenerator.init "m") "q" none none).contents
          ++ [Turn.mk "model"
              ((fun (_ : ApiParams) => GenResponse.mk (Candidate.mk "STOP" [CPart.text "plain"]))
                (build_initial (AIGenerator.init "m") "q" none none)).candidates0.parts] :=
  C10_no_tool_parts_followup (AIGenerator.init "m")
    (fun _ => GenResponse.mk (Candidate.mk "STOP" [CPart.text "plain"]))
    "q" none none (ToolManager.mk fun _ _ => Except.ok "r") rfl rfl

/-- When every executor invocation succeeds, the tool loop over a parts list
logs exactly one invocation per function-call part — same order, arguments as
resolved by `toolArgsOf` — and collects one result per function-call part. -/
theorem runTools_all_ok (tm : ToolManager)
    (hok : ∀ n a, ∃ s, tm.execute_tool n a = Except.ok s) :
    ∀ ps : List CPart,
      (runTools tm ps).2
          = (toolCallParts ps).map (fun fc => (fc.name, toolArgsOf fc))
        ∧ ∃ rs, (runTools tm ps).1 = Except.ok rs
            ∧ rs.length = (toolCallParts ps).length := by
  intro ps
  induction ps with
  | nil => exact ⟨rfl, [], rfl, rfl⟩
  | cons p rest ih =>
      obtain ⟨hlog, rs, hrs, hlen⟩ := ih
      cases p with
      | text s =>
          exact ⟨hlog, rs, hrs, hlen⟩
      | functionResponse n c =>
          exact ⟨hlog, rs, hrs, hlen⟩
      | functionCall fc =>
          obtain ⟨s, hs⟩ := hok fc.name (toolArgsOf fc)
          constructor
          · simp only [runTools, hs, hlog, toolCallParts, List.filterMap_cons,
              List.map_cons]
          · refine ⟨CPart.functionResponse fc.name s :: rs, ?_, ?_⟩
            · simp only [runTools, hs, hrs, Except.map]
            · simp only [List.length_cons, hlen, toolCallParts,
                List.filterMap_cons]

/-- C4 (amended to N ≥ 1): when the initial response holds at least one
function-call part and every executor invocation succeeds, the loop invokes
the executor exactly once per function-call part, in the order the parts
appear (the invocation log is the in-order image of the function-call parts),
and the follow-up request's conversation is the original contents plus the
`"model"` turn plus exactly one `"user"` turn aggregating all N results. -/
theorem C4_tool_calls_in_order (st : AIGenerator)
    (backend : ApiParams → GenResponse) (ir : GenResponse) (bp : ApiParams)
    (tm : ToolManager)
    (hok : ∀ n a, ∃ s, tm.execute_tool n a = Except.ok s)
    (hne : toolCallParts ir.candidates0.parts ≠ []) :
    (runTools tm ir.candidates0.parts).2
        = (toolCallParts ir.candidates0.parts).map
            (fun fc => (fc.name, toolArgsOf fc))
      ∧ ∃ rs fr, (runTools tm ir.candidates0.parts).1 = Except.ok rs
          ∧ rs.length = (toolCallParts ir.candidates0.parts).length
          ∧ (handle_tool_execution st backend ir bp tm).2.1 = [fr]
          ∧ fr.contents = bp.contents
              ++ [Turn.mk "model" ir.candidates0.parts]
              ++ [Turn.mk "user" rs] := by
  obtain ⟨hlog, rs, hrs, hlen⟩ := runTools_all_ok tm hok ir.candidates0.parts
  have hrs_ne : rs ≠ [] := by
    intro h
    subst h
    exact hne (List.length_eq_zero.mp hlen.symm)
  refine ⟨hlog, rs, ?_⟩
  simp only [handle_tool_execution, hrs, hrs_ne, ne_eq, not_false_eq_true,
    if_true, ite_true]
  exact ⟨_, trivial, hlen, rfl, rfl⟩

/-- Counterexample to C4 as stated, at N = 0: the tool-execution path is
taken (normal stop, tool manager supplied) on an initial response whose parts
hold zero function-call parts. The claim "appends exactly one tool-result
conversation turn (role 'user') aggregating all N results before the
follow-up request" fails: the follow-up conversation is exactly the user query
turn plus the `"model"` turn — zero tool-result turns are appended (and,
consistently, the executor is invoked zero times: the invocation log is
empty). -/
theorem C4_counterexample_zero_parts :
    ((generate_response (AIGenerator.init "m")
        (fun _ => GenResponse.mk (Candidate.mk "STOP" [CPart.text "plain"]))
        "q" none none (some (ToolManager.mk fun _ _ => Except.ok "r"))).2.1).map
      (fun r => r.contents)
      = [[Turn.mk "user" [CPart.text "q"]],
         [Turn.mk "user" [CPart.text "q"], Turn.mk "model" [CPart.text "plain"]]]
    ∧ (runTools (ToolManager.mk fun _ _ => Except.ok "r") [CPart.text "plain"]).2
      = [] :=
  ⟨rfl, rfl⟩

/-- Witness for C4 at a concrete input: two function-call parts separated by a
text part, an always-succeeding executor. -/
theorem C4_tool_calls_in_order_witness :
    (runTools (ToolManager.mk fun _ _ => Except.ok "r")
        (GenResponse.mk (Candidate.mk "STOP"
          [CPart.functionCall (FunctionCall.mk "alpha" (some [("x", "1")])),
           CPart.text "note",
           CPart.functionCall (FunctionCall.mk "beta" none)])).candidates0.parts).2
        = (toolCallParts (GenResponse.mk (Candidate.mk "STOP"
            [CPart.functionCall (FunctionCall.mk "alpha" (some [("x", "1")])),
             CPart.text "note",
             CPart.functionCall (FunctionCall.mk "beta" none)])).candidates0.parts).map
            (fun fc => (fc.name, toolArgsOf fc))
      ∧ ∃ rs fr, (runTools (ToolManager.mk fun _ _ => Except.ok "r")
            (GenResponse.mk (Candidate.mk "STOP"
              [CPart.functionCall (FunctionCall.mk "alpha" (some [("x", "1")])),
               CPart.text "note",
               CPart.functionCall (FunctionCall.mk "beta" none)])).candidates0.parts).1
            = Except.ok rs
          ∧ rs.length = (toolCallParts (GenResponse.mk (Candidate.mk "STOP"
              [CPart.functionCall (FunctionCall.mk "alpha" (some [("x", "1")])),
               CPart.text "note",
               CPart.functionCall (FunctionCall.mk "beta" none)])).candidates0.parts).length
          ∧ (handle_tool_execution (AIGenerator.init "m")
              (fun _ => GenResponse.mk (Candidate.mk "STOP" [CPart.text "done"]))
              (GenResponse.mk (Candidate.mk "STOP"
                [CPart.functionCall (FunctionCall.mk "alpha" (some [("x", "1")])),
                 CPart.text "note",
                 CPart.functionCall (FunctionCall.mk "beta" none)]))
              (build_initial (AIGenerator.init "m") "q" none none)
              (ToolManager.mk fun _ _ => Except.ok "r")).2.1 = [fr]
          ∧ fr.contents = (build_initial (AIGenerator.init "m") "q" none none).contents
              ++ [Turn.mk "model" (GenResponse.mk (Candidate.mk "STOP"
                  [CPart.functionCall (FunctionCall.mk "alpha" (some [("x", "1")])),
                   CPart.text "note",
                   CPart.functionCall (FunctionCall.mk "beta" none)])).candidates0.parts]
              ++ [Turn.mk "user" rs] :=
  C4_tool_calls_in_order (AIGenerator.init "m")
    (fun _ => GenResponse.mk (Candidate.mk "STOP" [CPart.text "done"]))
    (GenResponse.mk (Candidate.mk "STOP"
      [CPart.functionCall (FunctionCall.mk "alpha" (some [("x", "1")])),
       CPart.text "note",
       CPart.functionCall (FunctionCall.mk "beta" none)]))
    (build_initial (AIGenerator.init "m") "q" none none)
    (ToolManager.mk fun _ _ => Except.ok "r")
    (fun n a => ⟨"r", rfl⟩) (by decide)
